import Mathlib

/-!
Verification of the piecewise cubic-Bezier path editor
(`Path3DMesh` in src/src/shared/ipc.ts and the segment-removal handler in
src/src/renderer/editor/components/inspectors/node/components/path3d-inspector.tsx).

The embedding makes object identity explicit: every `Vector3` object that a
segment can reference lives in an arena (`PathState.store`), and a segment
(`MeshCurve`) holds arena indices for its four control points.  Two segments
share a control point by reference exactly when they hold the same index.
Helper spheres (`AbstractMesh` objects) are identified by numeric ids allocated
from a counter; their positions live in an association list keyed by id, so
that mutating a helper object through one occurrence is seen by every
occurrence, exactly as in the source.
-/

namespace Path3D

/-- A 3D coordinate (the engine's `Vector3` value), with exact rational
components in place of IEEE doubles. -/
structure Vec3 where
  x : ℚ
  y : ℚ
  z : ℚ

def Vec3.zero : Vec3 := ⟨0, 0, 0⟩

/-- Modelled from the spec: the scalar cubic-Bezier polynomial evaluated by the
external engine's `Curve3.CreateCubicBezier`, which is not part of this
repository.  The spec defines the sampling as points lying on the cubic Bezier
curve of the four control points, parameterized uniformly over [0,1]. -/
def bezier (t a b c d : ℚ) : ℚ :=
  (1 - t) ^ 3 * a + 3 * t * (1 - t) ^ 2 * b + 3 * t ^ 2 * (1 - t) * c + t ^ 3 * d

/-- Componentwise cubic-Bezier point at parameter `t`. -/
def bezierV (t : ℚ) (p0 p1 p2 p3 : Vec3) : Vec3 :=
  ⟨bezier t p0.x p1.x p2.x p3.x, bezier t p0.y p1.y p2.y p3.y, bezier t p0.z p1.z p2.z p3.z⟩

/-- Modelled from the spec: `sample(start, ctrl1, ctrl2, end, count)` of the
Curve Segment Model — the external engine's `Curve3.CreateCubicBezier`, not
part of this repository.  Per the spec it returns count+1 points at uniform
parameters, and a count < 1 is invalid input and is rejected as an error
(modelled as `none`). -/
def sample (p0 p1 p2 p3 : Vec3) (count : Nat) : Option (List Vec3) :=
  if count < 1 then none
  else some ((List.range (count + 1)).map (fun (i : Nat) => bezierV ((i : ℚ) / (count : ℚ)) p0 p1 p2 p3))

/-- One curve segment (`IPath3DMeshCurve`): a cached sample sequence `curve`,
the sample count `nbPoints`, and arena indices of the four control points. -/
structure MeshCurve where
  curve : List Vec3
  nbPoints : Nat
  v0 : Nat
  v1 : Nat
  v2 : Nat
  v3 : Nat

def MeshCurve.default : MeshCurve := ⟨[], 0, 0, 0, 0, 0⟩

/-- The whole editor state of one `Path3DMesh`. -/
structure PathState where
  /-- Arena of `Vector3` objects the segments reference. -/
  store : List Vec3
  /-- `this.curves` -/
  curves : List MeshCurve
  /-- `this._helpers`: pool of helper ids. -/
  helpers : List Nat
  /-- position of each helper object, keyed by id. -/
  helperPos : List (Nat × Vec3)
  /-- `this._helperRef` -/
  helperRef : Option Nat
  /-- ids of disposed helper meshes. -/
  disposed : List Nat
  /-- id allocator for freshly created helper meshes. -/
  nextId : Nat
  /-- `this.isVisible` -/
  isVisible : Bool
  /-- vertex data last pushed to the geometry. -/
  geometry : List Vec3

/-- Read an arena slot (dereference a `Vector3`). -/
def getV (l : List Vec3) (i : Nat) : Vec3 := l.getD i Vec3.zero

/-- Overwrite an arena slot (`Vector3.copyFrom` on the object at index `i`). -/
def writeStore (s : PathState) (i : Nat) (p : Vec3) : PathState :=
  { s with store := s.store.set i p }

/-- Look up a helper object's position by id. -/
def lookupPos (l : List (Nat × Vec3)) (i : Nat) : Vec3 :=
  match l.lookup i with
  | some v => v
  | none => Vec3.zero

/-- Record a helper object's position by id. -/
def setPos (l : List (Nat × Vec3)) (i : Nat) (p : Vec3) : List (Nat × Vec3) :=
  (i, p) :: l

def setHelperPos (s : PathState) (id : Nat) (p : Vec3) : PathState :=
  { s with helperPos := setPos s.helperPos id p }

/-- `updateCurve` (ipc.ts line 115): recompute one segment's cached samples
from its current control points.  When sampling rejects the count, the cached
samples are left untouched. -/
def updateCurve (st : List Vec3) (c : MeshCurve) : MeshCurve :=
  match sample (getV st c.v0) (getV st c.v1) (getV st c.v2) (getV st c.v3) c.nbPoints with
  | some pts => { c with curve := pts }
  | none => c

/-- `buildCurves` (ipc.ts line 105): recompute every segment's cached samples. -/
def buildCurves (s : PathState) : PathState :=
  { s with curves := s.curves.map (updateCurve s.store) }

/-- The plain concatenation of all cached sample sequences, in segment order. -/
def finalPoints (s : PathState) : List Vec3 :=
  (s.curves.map MeshCurve.curve).flatten

/-- `getFinalCurvePoints` (ipc.ts line 122): rebuild every segment, then return
the combined polyline. -/
def getFinalCurvePoints (s : PathState) : PathState × List Vec3 :=
  let s1 := buildCurves s
  (s1, finalPoints s1)

/-- `_getHelper` (ipc.ts line 206): fetch the helper at a slot, creating the
prototype sphere or an instance of it when the slot is empty; the fetched
helper is unconditionally pushed at the end of the pool. -/
def getHelper (s : PathState) (index : Nat) : PathState × Nat :=
  match s.helpers.get? index with
  | some h => ({ s with helpers := s.helpers ++ [h] }, h)
  | none =>
    match s.helperRef with
    | some _ =>
      ({ s with
          helpers := s.helpers ++ [s.nextId],
          helperPos := setPos s.helperPos s.nextId Vec3.zero,
          nextId := s.nextId + 1 }, s.nextId)
    | none =>
      ({ s with
          helpers := s.helpers ++ [s.nextId],
          helperPos := setPos s.helperPos s.nextId Vec3.zero,
          helperRef := some s.nextId,
          nextId := s.nextId + 1 }, s.nextId)

/-- One iteration of the `curves.forEach` loop of `_showHelpers`
(ipc.ts line 185): the accumulator carries the state, the running slot index
and the running `curveStart` offset. -/
def showStep (points : List Vec3) (acc : PathState × Nat × Nat) (c : MeshCurve) :
    PathState × Nat × Nat :=
  let g := getHelper acc.1 acc.2.1
  (setHelperPos g.1 g.2 (getV points acc.2.2), acc.2.1 + 1, acc.2.2 + c.nbPoints)

/-- The trailing loop of `_showHelpers` (ipc.ts line 197): dispose and splice
away every pool entry at an index above `curves.length`, from the end down. -/
def pruneHelpers (s : PathState) : PathState :=
  { s with
      helpers := s.helpers.take (s.curves.length + 1),
      disposed := s.disposed ++ (s.helpers.drop (s.curves.length + 1)).reverse }

/-- `_showHelpers` (ipc.ts line 181). -/
def showHelpers (s : PathState) : PathState :=
  let pr := getFinalCurvePoints s
  let r := pr.1.curves.foldl (showStep pr.2) (pr.1, 0, 0)
  let g := getHelper r.1 r.1.curves.length
  pruneHelpers (setHelperPos g.1 g.2 (getV pr.2 (pr.2.length - 1)))

/-- `_updateCurveGeometry` (ipc.ts line 144): rebuild, push the combined
polyline to the geometry, and re-show the helpers only when asked to and
visible. -/
def updateCurveGeometryAux (updateHelpers : Bool) (s : PathState) : PathState :=
  let pr := getFinalCurvePoints s
  let s1 := { pr.1 with geometry := pr.2 }
  if updateHelpers && s1.isVisible then showHelpers s1 else s1

/-- `updateCurveGeometry` (ipc.ts line 137). -/
def updateCurveGeometry (s : PathState) : PathState :=
  updateCurveGeometryAux true s

/-- `_hideHelpers` (ipc.ts line 241): dispose every helper, clear the pool and
the prototype reference. -/
def hideHelpers (s : PathState) : PathState :=
  { s with
      disposed := s.disposed ++ s.helpers,
      helpers := [],
      helperRef := none }

/-- `show` (ipc.ts line 164). -/
def showMesh (s : PathState) : PathState :=
  showHelpers { s with isVisible := true }

/-- `hide` (ipc.ts line 173). -/
def hideMesh (s : PathState) : PathState :=
  hideHelpers { s with isVisible := false }

/-- The drag callback registered by `_getHelper` (ipc.ts lines 216-233): both
local variables start as dummy `Vector3.Zero()` objects; depending on the slot
they are rebound to the real control points, then both receive the helper's
position; writes into a dummy are dropped since no segment references it. -/
def dragCallback (s : PathState) (index : Nat) : PathState :=
  let pos := lookupPos s.helperPos (s.helpers.getD index 0)
  let s1 :=
    if index = s.curves.length then
      writeStore s (s.curves.getD (index - 1) MeshCurve.default).v3 pos
    else if 0 < index then
      writeStore (writeStore s (s.curves.getD index MeshCurve.default).v0 pos)
        (s.curves.getD (index - 1) MeshCurve.default).v3 pos
    else
      writeStore s (s.curves.getD index MeshCurve.default).v0 pos
  updateCurveGeometryAux false s1

/-- A user drag of the helper at a slot: the gizmo moves the helper object to
`p`, then the registered callback runs. -/
def dragHelper (s : PathState) (index : Nat) (p : Vec3) : PathState :=
  dragCallback (setHelperPos s (s.helpers.getD index 0) p) index

/-- JavaScript `splice(i, 1)`: drop the element at `i` when in range, keep the
list unchanged otherwise. -/
def removeAt (l : List MeshCurve) (i : Nat) : List MeshCurve :=
  l.take i ++ l.drop (i + 1)

/-- The Remove menu entry of `_handleCurveNodeContextMenu`
(path3d-inspector.tsx lines 132-150): rejected silently when at most one
segment remains, otherwise splice the segment out and refresh the geometry. -/
def removeSegment (s : PathState) (index : Nat) : PathState :=
  if s.curves.length ≤ 1 then s
  else updateCurveGeometry { s with curves := removeAt s.curves index }

/-- An inspector edit of a segment's end point (`InspectorVector3` bound to
`v3`, path3d-inspector.tsx line 95): mutate the referenced `Vector3` object in
place, then `updateCurveGeometry`. -/
def setSegmentV3 (s : PathState) (i : Nat) (p : Vec3) : PathState :=
  updateCurveGeometry (writeStore s (s.curves.getD i MeshCurve.default).v3 p)

/-- The default control points of `Path3DMesh.curves` (ipc.ts lines 69-72):
eight freshly allocated `Vector3` objects, one arena slot each.  The joint
values `(1,1,1)` at slots 3 and 4 come from two separate `new Vector3(1, 1, 1)`
expressions. -/
def defaultStore : List Vec3 :=
  [⟨0, 0, 0⟩, ⟨5/2, 5/2, -(1/2)⟩, ⟨3/2, 2, -1⟩, ⟨1, 1, 1⟩,
   ⟨1, 1, 1⟩, ⟨5/2, 5/2, -(1/2)⟩, ⟨3/2, 2, -1⟩, ⟨0, 3, 0⟩]

/-- The two default segments, 10 samples each, with `curve: null!` modelled as
an empty cache until `buildCurves` runs. -/
def defaultCurves : List MeshCurve :=
  [⟨[], 10, 0, 1, 2, 3⟩, ⟨[], 10, 4, 5, 6, 7⟩]

/-- The field values at the start of the constructor (ipc.ts line 82); a fresh
`LinesMesh` is visible. -/
def initialState : PathState :=
  { store := defaultStore, curves := defaultCurves, helpers := [], helperPos := [],
    helperRef := none, disposed := [], nextId := 0, isVisible := true, geometry := [] }

/-- The state after the constructor ran: `hide(); buildCurves();
updateCurveGeometry();` (ipc.ts lines 97-99). -/
def defaultState : PathState :=
  updateCurveGeometry (buildCurves (hideMesh initialState))

/-- The running `curveStart` offset of `_showHelpers` at slot `i`: the sum of
the `nbPoints` of the segments before `i`. -/
def cumNb (cs : List MeshCurve) (i : Nat) : Nat :=
  ((cs.take i).map MeshCurve.nbPoints).sum

/-- The position `_showHelpers` derives for the handle at slot `i` from the
freshly rebuilt combined polyline: the point at offset `curveStart` for
`i < curves.length`, the very last point for `i = curves.length`. -/
def derivedPos (s : PathState) (i : Nat) : Vec3 :=
  let pts := finalPoints (buildCurves s)
  if i = s.curves.length then getV pts (pts.length - 1) else getV pts (cumNb s.curves i)

/-- Every handle slot `0 … curves.length` sits at its derived position. -/
def handlesConsistent (s : PathState) : Prop :=
  ∀ i, i ≤ s.curves.length →
    lookupPos s.helperPos (s.helpers.getD i 0) = derivedPos s i

/-- Every segment's cached samples agree with its current control points, so a
rebuild leaves the segments unchanged. -/
def cachesConsistent (s : PathState) : Prop :=
  s.curves.map (updateCurve s.store) = s.curves

/-- The state right after the inspector gained focus on the freshly
constructed mesh (`componentDidMount` calls `show()`). -/
def shownState : PathState :=
  showMesh defaultState

/-- A reachable one-segment state: the shown default path after removing
segment 0. -/
def oneSegState : PathState :=
  removeSegment shownState 0

end Path3D

namespace Path3D

/-! ### Basic facts about the spec-modelled sampler -/

theorem Vec3.ext_iff {a b : Vec3} : a = b ↔ a.x = b.x ∧ a.y = b.y ∧ a.z = b.z := by
  constructor
  · intro h
    subst h
    exact ⟨rfl, rfl, rfl⟩
  · intro h
    cases a
    cases b
    simp only [Vec3.mk.injEq]
    exact ⟨h.1, h.2.1, h.2.2⟩

theorem bezier_zero (a b c d : ℚ) : bezier 0 a b c d = a := by
  unfold bezier
  ring

theorem bezier_one (a b c d : ℚ) : bezier 1 a b c d = d := by
  unfold bezier
  ring

theorem bezierV_zero (p0 p1 p2 p3 : Vec3) : bezierV 0 p0 p1 p2 p3 = p0 := by
  cases p0
  simp [bezierV, bezier_zero]

theorem bezierV_one (p0 p1 p2 p3 : Vec3) : bezierV 1 p0 p1 p2 p3 = p3 := by
  cases p3
  simp [bezierV, bezier_one]

theorem sample_eq_some (p0 p1 p2 p3 : Vec3) {count : Nat} (h : 1 ≤ count) :
    sample p0 p1 p2 p3 count =
      some ((List.range (count + 1)).map
        (fun (i : Nat) => bezierV ((i : ℚ) / (count : ℚ)) p0 p1 p2 p3)) := by
  unfold sample
  rw [if_neg (by omega)]

theorem sample_none {count : Nat} (h : count < 1) (p0 p1 p2 p3 : Vec3) :
    sample p0 p1 p2 p3 count = none := by
  unfold sample
  rw [if_pos h]

theorem sample_length (p0 p1 p2 p3 : Vec3) {count : Nat} (h : 1 ≤ count) {pts : List Vec3}
    (hp : sample p0 p1 p2 p3 count = some pts) : pts.length = count + 1 := by
  rw [sample_eq_some p0 p1 p2 p3 h] at hp
  cases hp
  rw [List.length_map, List.length_range]

theorem sample_getD (p0 p1 p2 p3 : Vec3) {count : Nat} (h : 1 ≤ count) {pts : List Vec3}
    (hp : sample p0 p1 p2 p3 count = some pts) {i : Nat} (hi : i ≤ count) :
    pts.getD i Vec3.zero = bezierV ((i : ℚ) / (count : ℚ)) p0 p1 p2 p3 := by
  rw [sample_eq_some p0 p1 p2 p3 h] at hp
  cases hp
  rw [List.getD_eq_getElem _ Vec3.zero (by rw [List.length_map, List.length_range]; omega)]
  rw [List.getElem_map, List.getElem_range]

theorem sample_head (p0 p1 p2 p3 : Vec3) {count : Nat} (h : 1 ≤ count) {pts : List Vec3}
    (hp : sample p0 p1 p2 p3 count = some pts) : pts.getD 0 Vec3.zero = p0 := by
  rw [sample_getD p0 p1 p2 p3 h hp (Nat.zero_le count)]
  norm_num [bezierV_zero]

theorem sample_last (p0 p1 p2 p3 : Vec3) {count : Nat} (h : 1 ≤ count) {pts : List Vec3}
    (hp : sample p0 p1 p2 p3 count = some pts) : pts.getD count Vec3.zero = p3 := by
  rw [sample_getD p0 p1 p2 p3 h hp (Nat.le_refl count)]
  rw [div_self (by exact_mod_cast (by omega : count ≠ 0) : (count : ℚ) ≠ 0)]
  exact bezierV_one p0 p1 p2 p3

/-- C3: for all control points and every count ≥ 1, sampling one cubic Bezier
segment returns exactly count+1 points at uniform parameters over [0,1], with
the first point equal to the start point and the last equal to the end point
(exactly, since the embedding computes with exact rationals); the sampler is a
pure function of its arguments. -/
theorem C3_sample_contract (p0 p1 p2 p3 : Vec3) (count : Nat) (h : 1 ≤ count) :
    ∃ pts : List Vec3,
      sample p0 p1 p2 p3 count = some pts ∧
      pts.length = count + 1 ∧
      pts.getD 0 Vec3.zero = p0 ∧
      pts.getD count Vec3.zero = p3 ∧
      ∀ i, i ≤ count →
        pts.getD i Vec3.zero = bezierV ((i : ℚ) / (count : ℚ)) p0 p1 p2 p3 := by
  refine ⟨_, sample_eq_some p0 p1 p2 p3 h, ?_, ?_, ?_, ?_⟩
  · exact sample_length p0 p1 p2 p3 h (sample_eq_some p0 p1 p2 p3 h)
  · exact sample_head p0 p1 p2 p3 h (sample_eq_some p0 p1 p2 p3 h)
  · exact sample_last p0 p1 p2 p3 h (sample_eq_some p0 p1 p2 p3 h)
  · intro i hi
    exact sample_getD p0 p1 p2 p3 h (sample_eq_some p0 p1 p2 p3 h) hi

theorem C3_witness :
    1 ≤ 10 ∧
    ∃ pts : List Vec3,
      sample ⟨0, 0, 0⟩ ⟨5/2, 5/2, -(1/2)⟩ ⟨3/2, 2, -1⟩ ⟨1, 1, 1⟩ 10 = some pts ∧
      pts.length = 10 + 1 ∧
      pts.getD 0 Vec3.zero = ⟨0, 0, 0⟩ ∧
      pts.getD 10 Vec3.zero = ⟨1, 1, 1⟩ ∧
      ∀ i, i ≤ 10 →
        pts.getD i Vec3.zero =
          bezierV ((i : ℚ) / (10 : ℚ)) ⟨0, 0, 0⟩ ⟨5/2, 5/2, -(1/2)⟩ ⟨3/2, 2, -1⟩ ⟨1, 1, 1⟩ :=
  ⟨by decide, C3_sample_contract ⟨0, 0, 0⟩ ⟨5/2, 5/2, -(1/2)⟩ ⟨3/2, 2, -1⟩ ⟨1, 1, 1⟩ 10 (by decide)⟩

/-- C4: a sample count below 1 is rejected by the sampler, and on that
rejection `updateCurve` leaves the segment — in particular its cached sample
sequence — completely unchanged. -/
theorem C4_invalid_count_rejected (st : List Vec3) (c : MeshCurve) (h : c.nbPoints < 1) :
    sample (getV st c.v0) (getV st c.v1) (getV st c.v2) (getV st c.v3) c.nbPoints = none ∧
    updateCurve st c = c := by
  refine ⟨sample_none h _ _ _ _, ?_⟩
  unfold updateCurve
  rw [sample_none h]

theorem C4_witness :
    (⟨[⟨1, 2, 3⟩], 0, 0, 0, 0, 0⟩ : MeshCurve).nbPoints < 1 ∧
    (sample (getV [⟨4, 4, 4⟩] 0) (getV [⟨4, 4, 4⟩] 0) (getV [⟨4, 4, 4⟩] 0) (getV [⟨4, 4, 4⟩] 0) 0
        = none ∧
      updateCurve [⟨4, 4, 4⟩] ⟨[⟨1, 2, 3⟩], 0, 0, 0, 0, 0⟩ = ⟨[⟨1, 2, 3⟩], 0, 0, 0, 0, 0⟩) :=
  ⟨by decide, C4_invalid_count_rejected [⟨4, 4, 4⟩] ⟨[⟨1, 2, 3⟩], 0, 0, 0, 0, 0⟩ (by decide)⟩

end Path3D

namespace Path3D

/-! ### Helper-position and arena bookkeeping -/

theorem lookupPos_setPos_self (l : List (Nat × Vec3)) (i : Nat) (p : Vec3) :
    lookupPos (setPos l i p) i = p := by
  simp [lookupPos, setPos, List.lookup_cons]

theorem lookupPos_setPos_ne (l : List (Nat × Vec3)) {i j : Nat} (h : j ≠ i) (p : Vec3) :
    lookupPos (setPos l i p) j = lookupPos l j := by
  have hb : (j == i) = false := by simp [h]
  simp [lookupPos, setPos, List.lookup_cons, hb]

theorem getV_set_self {l : List Vec3} {i : Nat} (h : i < l.length) (p : Vec3) :
    getV (l.set i p) i = p := by
  simp [getV, List.getD_eq_getElem?_getD, List.getElem?_set_self h]

theorem getV_set_ne {l : List Vec3} {i j : Nat} (h : i ≠ j) (p : Vec3) :
    getV (l.set i p) j = getV l j := by
  simp [getV, List.getD_eq_getElem?_getD, List.getElem?_set_ne h]

/-! ### Field bookkeeping for the rebuild operations -/

theorem updateCurve_v0 (st : List Vec3) (c : MeshCurve) : (updateCurve st c).v0 = c.v0 := by
  unfold updateCurve
  cases sample (getV st c.v0) (getV st c.v1) (getV st c.v2) (getV st c.v3) c.nbPoints <;> rfl

theorem updateCurve_v1 (st : List Vec3) (c : MeshCurve) : (updateCurve st c).v1 = c.v1 := by
  unfold updateCurve
  cases sample (getV st c.v0) (getV st c.v1) (getV st c.v2) (getV st c.v3) c.nbPoints <;> rfl

theorem updateCurve_v2 (st : List Vec3) (c : MeshCurve) : (updateCurve st c).v2 = c.v2 := by
  unfold updateCurve
  cases sample (getV st c.v0) (getV st c.v1) (getV st c.v2) (getV st c.v3) c.nbPoints <;> rfl

theorem updateCurve_v3 (st : List Vec3) (c : MeshCurve) : (updateCurve st c).v3 = c.v3 := by
  unfold updateCurve
  cases sample (getV st c.v0) (getV st c.v1) (getV st c.v2) (getV st c.v3) c.nbPoints <;> rfl

theorem updateCurve_nbPoints (st : List Vec3) (c : MeshCurve) :
    (updateCurve st c).nbPoints = c.nbPoints := by
  unfold updateCurve
  cases sample (getV st c.v0) (getV st c.v1) (getV st c.v2) (getV st c.v3) c.nbPoints <;> rfl

theorem updateCurve_curve_of_some (st : List Vec3) (c : MeshCurve) {pts : List Vec3}
    (h : sample (getV st c.v0) (getV st c.v1) (getV st c.v2) (getV st c.v3) c.nbPoints
      = some pts) :
    (updateCurve st c).curve = pts := by
  unfold updateCurve
  rw [h]

theorem updateCurve_idem (st : List Vec3) (c : MeshCurve) :
    updateCurve st (updateCurve st c) = updateCurve st c := by
  rcases c with ⟨cur, nb, a, b, d, e⟩
  cases h : sample (getV st a) (getV st b) (getV st d) (getV st e) nb with
  | none => simp [updateCurve, h]
  | some pts => simp [updateCurve, h]

theorem buildCurves_store (s : PathState) : (buildCurves s).store = s.store := rfl

theorem buildCurves_helpers (s : PathState) : (buildCurves s).helpers = s.helpers := rfl

theorem buildCurves_helperPos (s : PathState) : (buildCurves s).helperPos = s.helperPos := rfl

theorem buildCurves_disposed (s : PathState) : (buildCurves s).disposed = s.disposed := rfl

theorem buildCurves_nextId (s : PathState) : (buildCurves s).nextId = s.nextId := rfl

theorem buildCurves_isVisible (s : PathState) : (buildCurves s).isVisible = s.isVisible := rfl

theorem buildCurves_geometry (s : PathState) : (buildCurves s).geometry = s.geometry := rfl

theorem buildCurves_curves_length (s : PathState) :
    (buildCurves s).curves.length = s.curves.length := by
  simp [buildCurves]

theorem buildCurves_consistent (s : PathState) : cachesConsistent (buildCurves s) := by
  unfold cachesConsistent buildCurves
  simp only [List.map_map]
  exact List.map_congr_left (fun c _ => updateCurve_idem s.store c)

theorem buildCurves_eq_self {s : PathState} (h : cachesConsistent s) : buildCurves s = s := by
  show { s with curves := s.curves.map (updateCurve s.store) } = s
  rw [h]

theorem buildCurves_idem (s : PathState) : buildCurves (buildCurves s) = buildCurves s :=
  buildCurves_eq_self (buildCurves_consistent s)

/-! ### The helper pool under `_getHelper` and `_showHelpers` -/

theorem getHelper_spec (s : PathState) (i : Nat) :
    (getHelper s i).1.store = s.store ∧
    (getHelper s i).1.curves = s.curves ∧
    (getHelper s i).1.disposed = s.disposed ∧
    (getHelper s i).1.geometry = s.geometry ∧
    (getHelper s i).1.isVisible = s.isVisible ∧
    (getHelper s i).1.helpers = s.helpers ++ [(getHelper s i).2] ∧
    ((getHelper s i).2 ∈ s.helpers ∨ (getHelper s i).2 = s.nextId) ∧
    s.nextId ≤ (getHelper s i).1.nextId := by
  unfold getHelper
  cases h : s.helpers.get? i with
  | some a =>
    refine ⟨rfl, rfl, rfl, rfl, rfl, rfl, Or.inl ?_, Nat.le_refl _⟩
    rw [List.get?_eq_getElem?] at h
    exact List.getElem?_mem h
  | none =>
    cases s.helperRef with
    | some r => exact ⟨rfl, rfl, rfl, rfl, rfl, rfl, Or.inr rfl, Nat.le_succ _⟩
    | none => exact ⟨rfl, rfl, rfl, rfl, rfl, rfl, Or.inr rfl, Nat.le_succ _⟩

theorem getHelper_of_lt (s : PathState) {i : Nat} (h : i < s.helpers.length) :
    getHelper s i = ({ s with helpers := s.helpers ++ [s.helpers.getD i 0] }, s.helpers.getD i 0)
    := by
  unfold getHelper
  have hs : s.helpers.get? i = some (s.helpers.getD i 0) := by
    rw [List.get?_eq_getElem?, List.getD_eq_getElem _ 0 h, List.getElem?_eq_getElem h]
  rw [hs]

theorem showFold_spec (points : List Vec3) (cs : List MeshCurve) (acc : PathState × Nat × Nat) :
    (cs.foldl (showStep points) acc).1.store = acc.1.store ∧
    (cs.foldl (showStep points) acc).1.curves = acc.1.curves ∧
    (cs.foldl (showStep points) acc).1.disposed = acc.1.disposed ∧
    (cs.foldl (showStep points) acc).1.geometry = acc.1.geometry ∧
    (cs.foldl (showStep points) acc).1.isVisible = acc.1.isVisible ∧
    (∃ add : List Nat,
      (cs.foldl (showStep points) acc).1.helpers = acc.1.helpers ++ add ∧
      add.length = cs.length) ∧
    acc.1.nextId ≤ (cs.foldl (showStep points) acc).1.nextId ∧
    (∀ h ∈ (cs.foldl (showStep points) acc).1.helpers,
      h ∈ acc.1.helpers ∨ acc.1.nextId ≤ h) := by
  induction cs generalizing acc with
  | nil =>
    refine ⟨rfl, rfl, rfl, rfl, rfl, ⟨[], by simp, rfl⟩, Nat.le_refl _, ?_⟩
    intro h hm
    exact Or.inl hm
  | cons c cs ih =>
    rw [List.foldl_cons]
    obtain ⟨g1, g2, g3, g4, g5, ⟨add, hadd, hlen⟩, g6, g7⟩ := ih (showStep points acc c)
    obtain ⟨p1, p2, p3, p4, p5, p6, p7, p8⟩ := getHelper_spec acc.1 acc.2.1
    have hstep : (showStep points acc c).1 =
        setHelperPos (getHelper acc.1 acc.2.1).1 (getHelper acc.1 acc.2.1).2
          (getV points acc.2.2) := rfl
    refine ⟨?_, ?_, ?_, ?_, ?_, ⟨(getHelper acc.1 acc.2.1).2 :: add, ?_, by simp [hlen]⟩, ?_, ?_⟩
    · rw [g1, hstep]; exact p1
    · rw [g2, hstep]; exact p2
    · rw [g3, hstep]; exact p3
    · rw [g4, hstep]; exact p4
    · rw [g5, hstep]; exact p5
    · rw [hadd, hstep]
      show (getHelper acc.1 acc.2.1).1.helpers ++ add = _
      rw [p6, List.append_assoc]
      rfl
    · refine Nat.le_trans ?_ g6
      rw [hstep]
      exact p8
    · intro h hm
      rcases g7 h hm with hin | hge
      · rw [hstep] at hin
        have : h ∈ acc.1.helpers ++ [(getHelper acc.1 acc.2.1).2] := by
          rw [← p6]; exact hin
        rcases List.mem_append.mp this with h1 | h2
        · exact Or.inl h1
        · rcases p7 with hq | hq
          · rw [List.mem_singleton.mp h2]
            exact Or.inl hq
          · right
            rw [List.mem_singleton.mp h2, hq]
      · right
        refine Nat.le_trans ?_ hge
        rw [hstep]
        exact p8

end Path3D

namespace Path3D

theorem getFinalCurvePoints_fst (s : PathState) :
    (getFinalCurvePoints s).1 = buildCurves s := rfl

theorem getFinalCurvePoints_snd (s : PathState) :
    (getFinalCurvePoints s).2 = finalPoints (buildCurves s) := rfl

theorem showHelpers_eq (s : PathState) :
    showHelpers s =
      pruneHelpers
        (setHelperPos
          (getHelper ((buildCurves s).curves.foldl
              (showStep (finalPoints (buildCurves s))) (buildCurves s, 0, 0)).1
            ((buildCurves s).curves.foldl
              (showStep (finalPoints (buildCurves s))) (buildCurves s, 0, 0)).1.curves.length).1
          (getHelper ((buildCurves s).curves.foldl
              (showStep (finalPoints (buildCurves s))) (buildCurves s, 0, 0)).1
            ((buildCurves s).curves.foldl
              (showStep (finalPoints (buildCurves s))) (buildCurves s, 0, 0)).1.curves.length).2
          (getV (finalPoints (buildCurves s)) ((finalPoints (buildCurves s)).length - 1))) :=
  rfl

theorem pruneTail_spec (r : PathState) (idx : Nat) (v : Vec3) :
    (pruneHelpers (setHelperPos (getHelper r idx).1 (getHelper r idx).2 v)).store = r.store ∧
    (pruneHelpers (setHelperPos (getHelper r idx).1 (getHelper r idx).2 v)).curves = r.curves ∧
    (pruneHelpers (setHelperPos (getHelper r idx).1 (getHelper r idx).2 v)).geometry
      = r.geometry ∧
    (pruneHelpers (setHelperPos (getHelper r idx).1 (getHelper r idx).2 v)).isVisible
      = r.isVisible ∧
    (pruneHelpers (setHelperPos (getHelper r idx).1 (getHelper r idx).2 v)).helpers
      = (r.helpers ++ [(getHelper r idx).2]).take (r.curves.length + 1) ∧
    (pruneHelpers (setHelperPos (getHelper r idx).1 (getHelper r idx).2 v)).disposed
      = r.disposed ++ ((r.helpers ++ [(getHelper r idx).2]).drop (r.curves.length + 1)).reverse ∧
    (∀ h ∈ (pruneHelpers (setHelperPos (getHelper r idx).1 (getHelper r idx).2 v)).helpers,
      h ∈ r.helpers ∨ h = (getHelper r idx).2) := by
  obtain ⟨p1, p2, p3, p4, p5, p6, p7, p8⟩ := getHelper_spec r idx
  have hset : ∀ fld : PathState,
      (setHelperPos fld (getHelper r idx).2 v).store = fld.store := fun _ => rfl
  refine ⟨?_, ?_, ?_, ?_, ?_, ?_, ?_⟩
  · show (setHelperPos (getHelper r idx).1 (getHelper r idx).2 v).store = r.store
    exact p1
  · show (setHelperPos (getHelper r idx).1 (getHelper r idx).2 v).curves = r.curves
    exact p2
  · show (setHelperPos (getHelper r idx).1 (getHelper r idx).2 v).geometry = r.geometry
    exact p4
  · show (setHelperPos (getHelper r idx).1 (getHelper r idx).2 v).isVisible = r.isVisible
    exact p5
  · show (getHelper r idx).1.helpers.take ((getHelper r idx).1.curves.length + 1) = _
    rw [p6, p2]
  · show (getHelper r idx).1.disposed
        ++ ((getHelper r idx).1.helpers.drop ((getHelper r idx).1.curves.length + 1)).reverse = _
    rw [p6, p2, p3]
  · intro h hm
    have hm2 : h ∈ (r.helpers ++ [(getHelper r idx).2]).take (r.curves.length + 1) := by
      have e : (pruneHelpers (setHelperPos (getHelper r idx).1 (getHelper r idx).2 v)).helpers
          = (r.helpers ++ [(getHelper r idx).2]).take (r.curves.length + 1) := by
        show (getHelper r idx).1.helpers.take ((getHelper r idx).1.curves.length + 1) = _
        rw [p6, p2]
      rw [e] at hm
      exact hm
    rcases List.mem_append.mp (List.mem_of_mem_take hm2) with h1 | h2
    · exact Or.inl h1
    · exact Or.inr (List.mem_singleton.mp h2)

theorem showHelpers_spec (s : PathState) :
    (showHelpers s).store = s.store ∧
    (showHelpers s).curves = (buildCurves s).curves ∧
    (showHelpers s).geometry = s.geometry ∧
    (showHelpers s).isVisible = s.isVisible ∧
    (showHelpers s).helpers.length = s.curves.length + 1 ∧
    (∃ add : List Nat, add.length = s.curves.length + 1 ∧
      (showHelpers s).helpers = (s.helpers ++ add).take (s.curves.length + 1) ∧
      (showHelpers s).disposed
        = s.disposed ++ ((s.helpers ++ add).drop (s.curves.length + 1)).reverse) ∧
    (∀ h ∈ (showHelpers s).helpers, h ∈ s.helpers ∨ s.nextId ≤ h) := by
  obtain ⟨f1, f2, f3, f4, f5, ⟨add, hadd, hlen⟩, f6, f7⟩ :=
    showFold_spec (finalPoints (buildCurves s)) (buildCurves s).curves (buildCurves s, 0, 0)
  obtain ⟨t1, t2, t3, t4, t5, t6, t7⟩ :=
    pruneTail_spec ((buildCurves s).curves.foldl
        (showStep (finalPoints (buildCurves s))) (buildCurves s, 0, 0)).1
      ((buildCurves s).curves.foldl
        (showStep (finalPoints (buildCurves s))) (buildCurves s, 0, 0)).1.curves.length
      (getV (finalPoints (buildCurves s)) ((finalPoints (buildCurves s)).length - 1))
  rw [showHelpers_eq s]
  have hg2mem := (getHelper_spec ((buildCurves s).curves.foldl
      (showStep (finalPoints (buildCurves s))) (buildCurves s, 0, 0)).1
    ((buildCurves s).curves.foldl
      (showStep (finalPoints (buildCurves s))) (buildCurves s, 0, 0)).1.curves.length).2.2.2.2.2.2.1
  have hcl : ((buildCurves s).curves.foldl
      (showStep (finalPoints (buildCurves s))) (buildCurves s, 0, 0)).1.curves.length
      = s.curves.length := by
    rw [f2]
    exact buildCurves_curves_length s
  have hhelp : ((buildCurves s).curves.foldl
      (showStep (finalPoints (buildCurves s))) (buildCurves s, 0, 0)).1.helpers
      = s.helpers ++ add := by
    rw [hadd]
    rfl
  have hlen2 : add.length = s.curves.length := by
    rw [hlen]
    exact buildCurves_curves_length s
  have hfin : (pruneHelpers (setHelperPos
      (getHelper ((buildCurves s).curves.foldl
          (showStep (finalPoints (buildCurves s))) (buildCurves s, 0, 0)).1
        ((buildCurves s).curves.foldl
          (showStep (finalPoints (buildCurves s))) (buildCurves s, 0, 0)).1.curves.length).1
      (getHelper ((buildCurves s).curves.foldl
          (showStep (finalPoints (buildCurves s))) (buildCurves s, 0, 0)).1
        ((buildCurves s).curves.foldl
          (showStep (finalPoints (buildCurves s))) (buildCurves s, 0, 0)).1.curves.length).2
      (getV (finalPoints (buildCurves s)) ((finalPoints (buildCurves s)).length - 1)))).helpers
      = (s.helpers ++ (add ++ [(getHelper ((buildCurves s).curves.foldl
          (showStep (finalPoints (buildCurves s))) (buildCurves s, 0, 0)).1
        ((buildCurves s).curves.foldl
          (showStep (finalPoints (buildCurves s))) (buildCurves s, 0, 0)).1.curves.length).2])
        ).take (s.curves.length + 1) := by
    rw [t5, hcl, hhelp, List.append_assoc]
  refine ⟨?_, ?_, ?_, ?_, ?_, ?_, ?_⟩
  · rw [t1, f1]
    rfl
  · rw [t2, f2]
  · rw [t3, f4]
    rfl
  · rw [t4, f5]
    rfl
  · rw [hfin]
    simp only [List.length_take, List.length_append, List.length_cons, List.length_nil, hlen2]
    omega
  · refine ⟨add ++ [(getHelper ((buildCurves s).curves.foldl
        (showStep (finalPoints (buildCurves s))) (buildCurves s, 0, 0)).1
      ((buildCurves s).curves.foldl
        (showStep (finalPoints (buildCurves s))) (buildCurves s, 0, 0)).1.curves.length).2],
      ?_, hfin, ?_⟩
    · rw [List.length_append, hlen2]
      rfl
    · rw [t6, hcl, hhelp, f3, List.append_assoc]
      rfl
  · intro h hm
    rcases t7 h hm with hin | heq
    · rw [hhelp] at hin
      rcases List.mem_append.mp hin with h1 | h2
      · exact Or.inl h1
      · rcases f7 h (by rw [hhelp]; exact List.mem_append_right _ h2) with h3 | h4
        · exact Or.inl h3
        · exact Or.inr h4
    · rcases hg2mem with hq | hq
      · rw [hhelp] at hq
        rw [heq] at hm ⊢
        rcases List.mem_append.mp hq with h1 | h2
        · exact Or.inl h1
        · rcases f7 _ (by rw [hhelp]; exact List.mem_append_right _ h2) with h3 | h4
          · exact Or.inl h3
          · exact Or.inr h4
      · right
        rw [heq, hq]
        exact f6

end Path3D

namespace Path3D

theorem getD_mem_drop {l : List Nat} {n : Nat} (h : n < l.length) :
    l.getD n 0 ∈ l.drop n := by
  rw [List.getD_eq_getElem _ _ h]
  have h2 : 0 < (l.drop n).length := by
    rw [List.length_drop]
    omega
  have h3 : (l.drop n)[0] = l[n] := by
    rw [List.getElem_drop]
    congr 1
  rw [← h3]
  exact List.getElem_mem h2

theorem updateCurveGeometryAux_false_eq (s : PathState) :
    updateCurveGeometryAux false s
      = { buildCurves s with geometry := finalPoints (buildCurves s) } := rfl

theorem updateCurveGeometry_eq (s : PathState) :
    updateCurveGeometry s =
      if s.isVisible then
        showHelpers { buildCurves s with geometry := finalPoints (buildCurves s) }
      else { buildCurves s with geometry := finalPoints (buildCurves s) } := by
  obtain ⟨st, cs, hs, hp, hr, dis, ni, vis, geo⟩ := s
  cases vis
  · rfl
  · rfl

theorem removeAt_length (l : List MeshCurve) (i : Nat) :
    (removeAt l i).length = if i < l.length then l.length - 1 else l.length := by
  unfold removeAt
  rw [List.length_append, List.length_take, List.length_drop]
  split <;> omega

theorem updateCurveGeometry_curves_length (s : PathState) :
    (updateCurveGeometry s).curves.length = s.curves.length := by
  rw [updateCurveGeometry_eq]
  split
  · rw [(showHelpers_spec _).2.1]
    simp [buildCurves]
  · simp [buildCurves]

/-- C5: `removeSegment` is silently rejected when only one segment remains —
the state is returned unchanged and no failure escapes (the operation is a
total function) — and starting from any nonempty path no removal ever
produces a path with zero segments. -/
theorem C5_remove_guard (s : PathState) (idx : Nat) :
    (s.curves.length = 1 → removeSegment s idx = s) ∧
    (1 ≤ s.curves.length → 1 ≤ (removeSegment s idx).curves.length) := by
  constructor
  · intro h
    unfold removeSegment
    rw [if_pos (by omega)]
  · intro h
    unfold removeSegment
    by_cases hc : s.curves.length ≤ 1
    · rw [if_pos hc]
      omega
    · rw [if_neg hc]
      rw [updateCurveGeometry_curves_length]
      show 1 ≤ (removeAt s.curves idx).length
      rw [removeAt_length]
      split <;> omega

theorem C5_witness :
    oneSegState.curves.length = 1 ∧ removeSegment oneSegState 5 = oneSegState ∧
    1 ≤ (removeSegment oneSegState 5).curves.length :=
  ⟨by decide, (C5_remove_guard oneSegState 5).1 (by decide),
    (C5_remove_guard oneSegState 5).2 (by decide)⟩

/-- C6: after `show()` the helper pool always holds exactly segment count + 1
handles; after an in-range `removeSegment` on a visible path of at least two
segments (which triggers the redraw itself), the pool holds exactly
(new segment count) + 1 handles and the handle that had sat at the old last
slot is disposed, not merely dropped. -/
theorem C6_pool_size (s : PathState) (idx : Nat)
    (hpool : s.helpers.length = s.curves.length + 1)
    (hvis : s.isVisible = true)
    (h2 : 2 ≤ s.curves.length) (hidx : idx < s.curves.length) :
    (∀ t : PathState, (showMesh t).helpers.length = t.curves.length + 1) ∧
    (removeSegment s idx).helpers.length = (s.curves.length - 1) + 1 ∧
    s.helpers.getD s.curves.length 0 ∈ (removeSegment s idx).disposed := by
  have hshow : ∀ t : PathState, (showMesh t).helpers.length = t.curves.length + 1 := by
    intro t
    show (showHelpers { t with isVisible := true }).helpers.length = t.curves.length + 1
    exact (showHelpers_spec _).2.2.2.2.1
  refine ⟨hshow, ?_, ?_⟩
  all_goals
    have hrm : removeSegment s idx
        = updateCurveGeometry { s with curves := removeAt s.curves idx } := by
      unfold removeSegment
      rw [if_neg (by omega)]
  all_goals
    have hlen' : (removeAt s.curves idx).length = s.curves.length - 1 := by
      rw [removeAt_length, if_pos hidx]
  all_goals
    have hucg : updateCurveGeometry { s with curves := removeAt s.curves idx }
        = showHelpers { buildCurves { s with curves := removeAt s.curves idx } with
            geometry := finalPoints (buildCurves { s with curves := removeAt s.curves idx }) }
        := by
      rw [updateCurveGeometry_eq]
      rw [if_pos hvis]
  · rw [hrm, hucg, (showHelpers_spec _).2.2.2.2.1]
    show ((buildCurves { s with curves := removeAt s.curves idx }).curves.length) + 1 = _
    rw [buildCurves_curves_length]
    show (removeAt s.curves idx).length + 1 = _
    rw [hlen']
  · rw [hrm, hucg]
    obtain ⟨add, hal, _, hdisp⟩ := (showHelpers_spec ({ buildCurves
        { s with curves := removeAt s.curves idx } with
        geometry := finalPoints (buildCurves { s with curves := removeAt s.curves idx }) }
        : PathState)).2.2.2.2.2.1
    rw [hdisp]
    have hcur : ({ buildCurves { s with curves := removeAt s.curves idx } with
        geometry := finalPoints (buildCurves { s with curves := removeAt s.curves idx }) }
        : PathState).curves.length = s.curves.length - 1 := by
      show (buildCurves { s with curves := removeAt s.curves idx }).curves.length = _
      rw [buildCurves_curves_length]
      exact hlen'
    have hhelp : ({ buildCurves { s with curves := removeAt s.curves idx } with
        geometry := finalPoints (buildCurves { s with curves := removeAt s.curves idx }) }
        : PathState).helpers = s.helpers := rfl
    rw [hcur, hhelp]
    refine List.mem_append_right _ ?_
    rw [List.mem_reverse]
    have hle : s.curves.length - 1 + 1 ≤ s.helpers.length := by omega
    rw [List.drop_append_of_le_length hle]
    refine List.mem_append_left _ ?_
    have : s.curves.length - 1 + 1 = s.curves.length := by omega
    rw [this]
    exact getD_mem_drop (by omega)

theorem C6_witness :
    shownState.helpers.length = shownState.curves.length + 1 ∧
    shownState.curves.length = 2 ∧ shownState.isVisible = true ∧
    (removeSegment shownState 0).helpers.length = (shownState.curves.length - 1) + 1 ∧
    shownState.helpers.getD shownState.curves.length 0 ∈ (removeSegment shownState 0).disposed :=
  ⟨by decide, by decide, by decide,
    (C6_pool_size shownState 0 (by decide) (by decide) (by decide) (by decide)).2.1,
    (C6_pool_size shownState 0 (by decide) (by decide) (by decide) (by decide)).2.2⟩

/-- C9: `hide()` clears the whole handle pool; a following `show()` leaves the
control-point arena, the segment list (control points and cached samples) and
the rendered polyline exactly as before the `hide()`, while every handle in
the new pool is a freshly created object distinct from all those the `hide()`
disposed. -/
theorem C9_hide_show (s : PathState)
    (hcc : cachesConsistent s)
    (hb : ∀ h ∈ s.helpers, h < s.nextId) :
    (hideMesh s).helpers = [] ∧
    (showMesh (hideMesh s)).store = s.store ∧
    (showMesh (hideMesh s)).curves = s.curves ∧
    (showMesh (hideMesh s)).geometry = s.geometry ∧
    (showMesh (hideMesh s)).helpers.length = s.curves.length + 1 ∧
    (∀ h ∈ (showMesh (hideMesh s)).helpers, h ∉ s.helpers) := by
  have he : showMesh (hideMesh s) = showHelpers
      { s with
          isVisible := true,
          disposed := s.disposed ++ s.helpers,
          helpers := [],
          helperRef := none } := rfl
  have hcc2 : cachesConsistent
      ({ s with
          isVisible := true,
          disposed := s.disposed ++ s.helpers,
          helpers := [],
          helperRef := none } : PathState) := hcc
  obtain ⟨w1, w2, w3, w4, w5, _, w7⟩ := showHelpers_spec
      ({ s with
          isVisible := true,
          disposed := s.disposed ++ s.helpers,
          helpers := [],
          helperRef := none } : PathState)
  refine ⟨rfl, ?_, ?_, ?_, ?_, ?_⟩
  · rw [he, w1]
  · rw [he, w2, buildCurves_eq_self hcc2]
  · rw [he, w3]
  · rw [he, w5]
  · intro h hm
    rw [he] at hm
    rcases w7 h hm with hin | hge
    · simp at hin
    · intro hmem
      have h1 := hb h hmem
      have h2 : s.nextId ≤ h := hge
      omega

theorem C9_witness :
    cachesConsistent shownState ∧ (∀ h ∈ shownState.helpers, h < shownState.nextId) ∧
    (hideMesh shownState).helpers = [] ∧
    (showMesh (hideMesh shownState)).store = shownState.store ∧
    (showMesh (hideMesh shownState)).curves = shownState.curves ∧
    (showMesh (hideMesh shownState)).geometry = shownState.geometry ∧
    (showMesh (hideMesh shownState)).helpers.length = shownState.curves.length + 1 ∧
    (∀ h ∈ (showMesh (hideMesh shownState)).helpers, h ∉ shownState.helpers) := by
  have hcc : cachesConsistent shownState := rfl
  have hb : ∀ h ∈ shownState.helpers, h < shownState.nextId := by decide
  obtain ⟨a1, a2, a3, a4, a5, a6⟩ := C9_hide_show shownState hcc hb
  exact ⟨hcc, hb, a1, a2, a3, a4, a5, a6⟩

end Path3D

namespace Path3D

/-! ### The drag callback -/

theorem setHelperPos_curves (s : PathState) (i : Nat) (p : Vec3) :
    (setHelperPos s i p).curves = s.curves := rfl

theorem setHelperPos_helpers (s : PathState) (i : Nat) (p : Vec3) :
    (setHelperPos s i p).helpers = s.helpers := rfl

theorem setHelperPos_store (s : PathState) (i : Nat) (p : Vec3) :
    (setHelperPos s i p).store = s.store := rfl

theorem setHelperPos_helperPos (s : PathState) (i : Nat) (p : Vec3) :
    (setHelperPos s i p).helperPos = setPos s.helperPos i p := rfl

theorem writeStore_store (s : PathState) (i : Nat) (p : Vec3) :
    (writeStore s i p).store = s.store.set i p := rfl

theorem updateCurveGeometryAux_false_store (s : PathState) :
    (updateCurveGeometryAux false s).store = s.store := rfl

theorem dragCallback_eq (s : PathState) (index : Nat) :
    dragCallback s index =
      updateCurveGeometryAux false
        (if index = s.curves.length then
          writeStore s (s.curves.getD (index - 1) MeshCurve.default).v3
            (lookupPos s.helperPos (s.helpers.getD index 0))
        else if 0 < index then
          writeStore (writeStore s (s.curves.getD index MeshCurve.default).v0
              (lookupPos s.helperPos (s.helpers.getD index 0)))
            (s.curves.getD (index - 1) MeshCurve.default).v3
            (lookupPos s.helperPos (s.helpers.getD index 0))
        else
          writeStore s (s.curves.getD index MeshCurve.default).v0
            (lookupPos s.helperPos (s.helpers.getD index 0))) := rfl

theorem dragHelper_eq (s : PathState) (j : Nat) (p : Vec3) :
    dragHelper s j p =
      updateCurveGeometryAux false
        (if j = s.curves.length then
          writeStore (setHelperPos s (s.helpers.getD j 0) p)
            (s.curves.getD (j - 1) MeshCurve.default).v3 p
        else if 0 < j then
          writeStore (writeStore (setHelperPos s (s.helpers.getD j 0) p)
              (s.curves.getD j MeshCurve.default).v0 p)
            (s.curves.getD (j - 1) MeshCurve.default).v3 p
        else
          writeStore (setHelperPos s (s.helpers.getD j 0) p)
            (s.curves.getD j MeshCurve.default).v0 p) := by
  show dragCallback (setHelperPos s (s.helpers.getD j 0) p) j = _
  rw [dragCallback_eq]
  rw [setHelperPos_curves, setHelperPos_helpers, setHelperPos_helperPos,
    lookupPos_setPos_self]

/-- C7: the drag callback routes the new coordinate to the right control-point
objects.  For a joint slot j (0 < j < segment count), both segment j's start
and segment j-1's end become the dragged position; for slot 0 only the first
segment's start is written; for the final slot (= segment count) only the last
segment's end is written; in every case no other arena slot changes. -/
theorem C7_drag_routing (s : PathState) (j : Nat) (p : Vec3) :
    ((0 < j → j < s.curves.length →
      (s.curves.getD j MeshCurve.default).v0 < s.store.length →
      (s.curves.getD (j - 1) MeshCurve.default).v3 < s.store.length →
      getV (dragHelper s j p).store (s.curves.getD j MeshCurve.default).v0 = p ∧
      getV (dragHelper s j p).store (s.curves.getD (j - 1) MeshCurve.default).v3 = p ∧
      ∀ k, k ≠ (s.curves.getD j MeshCurve.default).v0 →
        k ≠ (s.curves.getD (j - 1) MeshCurve.default).v3 →
        getV (dragHelper s j p).store k = getV s.store k)) ∧
    (j = 0 → 0 < s.curves.length →
      (s.curves.getD 0 MeshCurve.default).v0 < s.store.length →
      getV (dragHelper s j p).store (s.curves.getD 0 MeshCurve.default).v0 = p ∧
      ∀ k, k ≠ (s.curves.getD 0 MeshCurve.default).v0 →
        getV (dragHelper s j p).store k = getV s.store k) ∧
    (j = s.curves.length → 0 < s.curves.length →
      (s.curves.getD (j - 1) MeshCurve.default).v3 < s.store.length →
      getV (dragHelper s j p).store (s.curves.getD (j - 1) MeshCurve.default).v3 = p ∧
      ∀ k, k ≠ (s.curves.getD (j - 1) MeshCurve.default).v3 →
        getV (dragHelper s j p).store k = getV s.store k) := by
  refine ⟨?_, ?_, ?_⟩
  · intro h0 hn hv0 hv3
    rw [dragHelper_eq, if_neg (by omega), if_pos h0, updateCurveGeometryAux_false_store,
      writeStore_store, writeStore_store, setHelperPos_store]
    refine ⟨?_, ?_, ?_⟩
    · by_cases he : (s.curves.getD j MeshCurve.default).v0
          = (s.curves.getD (j - 1) MeshCurve.default).v3
      · rw [he]
        exact getV_set_self (by rw [List.length_set]; omega) p
      · rw [getV_set_ne (fun hx => he hx.symm) p]
        exact getV_set_self hv0 p
    · exact getV_set_self (by rw [List.length_set]; omega) p
    · intro k hk0 hk3
      rw [getV_set_ne (fun hx => hk3 hx.symm) p, getV_set_ne (fun hx => hk0 hx.symm) p]
  · intro hj hn hv0
    subst hj
    rw [dragHelper_eq, if_neg (by omega), if_neg (by omega),
      updateCurveGeometryAux_false_store, writeStore_store, setHelperPos_store]
    refine ⟨getV_set_self hv0 p, ?_⟩
    intro k hk
    rw [getV_set_ne (fun hx => hk hx.symm) p]
  · intro hj hn hv3
    rw [dragHelper_eq, if_pos hj, updateCurveGeometryAux_false_store,
      writeStore_store, setHelperPos_store]
    refine ⟨getV_set_self hv3 p, ?_⟩
    intro k hk
    rw [getV_set_ne (fun hx => hk hx.symm) p]

theorem C7_witness :
    0 < 1 ∧ 1 < shownState.curves.length ∧
    (shownState.curves.getD 1 MeshCurve.default).v0 < shownState.store.length ∧
    (shownState.curves.getD 0 MeshCurve.default).v3 < shownState.store.length ∧
    getV (dragHelper shownState 1 ⟨5, 5, 5⟩).store
      (shownState.curves.getD 1 MeshCurve.default).v0 = ⟨5, 5, 5⟩ ∧
    getV (dragHelper shownState 1 ⟨5, 5, 5⟩).store
      (shownState.curves.getD 0 MeshCurve.default).v3 = ⟨5, 5, 5⟩ :=
  ⟨by decide, by decide, by decide, by decide,
    ((C7_drag_routing shownState 1 ⟨5, 5, 5⟩).1 (by decide) (by decide) (by decide)
      (by decide)).1,
    ((C7_drag_routing shownState 1 ⟨5, 5, 5⟩).1 (by decide) (by decide) (by decide)
      (by decide)).2.1⟩

end Path3D

namespace Path3D

/-! ### Derived handle positions on a two-segment path -/

theorem getD_append_left {l1 l2 : List Vec3} {i : Nat} (h : i < l1.length) (d : Vec3) :
    (l1 ++ l2).getD i d = l1.getD i d := by
  rw [List.getD_eq_getElem?_getD, List.getD_eq_getElem?_getD, List.getElem?_append, if_pos h]

theorem getD_append_right_exact (l1 l2 : List Vec3) (k : Nat) (d : Vec3) :
    (l1 ++ l2).getD (l1.length + k) d = l2.getD k d := by
  rw [List.getD_eq_getElem?_getD, List.getD_eq_getElem?_getD,
    List.getElem?_append_right (Nat.le_add_right _ _), Nat.add_sub_cancel_left]

theorem map_updateCurve_getD (st : List Vec3) (cs : List MeshCurve) {i : Nat}
    (h : i < cs.length) :
    (cs.map (updateCurve st)).getD i MeshCurve.default
      = updateCurve st (cs.getD i MeshCurve.default) := by
  rw [List.getD_eq_getElem _ _ (by rw [List.length_map]; exact h), List.getElem_map,
    List.getD_eq_getElem _ _ h]

theorem derivedPos_two (s : PathState) (hn : s.curves.length = 2)
    (hnb0 : 1 ≤ (s.curves.getD 0 MeshCurve.default).nbPoints)
    (hnb1 : 1 ≤ (s.curves.getD 1 MeshCurve.default).nbPoints) :
    derivedPos s 0 = getV s.store (s.curves.getD 0 MeshCurve.default).v0 ∧
    derivedPos s 1 = getV s.store (s.curves.getD 0 MeshCurve.default).v3 ∧
    derivedPos s 2 = getV s.store (s.curves.getD 1 MeshCurve.default).v3 := by
  obtain ⟨c0, c1, hc⟩ := List.length_eq_two.mp hn
  have hg0 : s.curves.getD 0 MeshCurve.default = c0 := by rw [hc]; rfl
  have hg1 : s.curves.getD 1 MeshCurve.default = c1 := by rw [hc]; rfl
  rw [hg0] at hnb0
  rw [hg1] at hnb1
  have hs0 := sample_eq_some (getV s.store c0.v0) (getV s.store c0.v1) (getV s.store c0.v2)
    (getV s.store c0.v3) hnb0
  have hs1 := sample_eq_some (getV s.store c1.v0) (getV s.store c1.v1) (getV s.store c1.v2)
    (getV s.store c1.v3) hnb1
  have hb : (buildCurves s).curves = [updateCurve s.store c0, updateCurve s.store c1] := by
    rw [buildCurves, hc]
    rfl
  have hfp : finalPoints (buildCurves s)
      = (updateCurve s.store c0).curve ++ (updateCurve s.store c1).curve := by
    unfold finalPoints
    rw [hb]
    simp
  have hl0 : (updateCurve s.store c0).curve.length = c0.nbPoints + 1 := by
    rw [updateCurve_curve_of_some s.store c0 hs0]
    exact sample_length _ _ _ _ hnb0 hs0
  have hl1 : (updateCurve s.store c1).curve.length = c1.nbPoints + 1 := by
    rw [updateCurve_curve_of_some s.store c1 hs1]
    exact sample_length _ _ _ _ hnb1 hs1
  refine ⟨?_, ?_, ?_⟩
  · simp only [derivedPos]
    rw [if_neg (by omega), hfp]
    have hcum : cumNb s.curves 0 = 0 := rfl
    rw [hcum]
    unfold getV
    rw [getD_append_left (by omega) Vec3.zero, updateCurve_curve_of_some s.store c0 hs0, hg0]
    exact sample_head _ _ _ _ hnb0 hs0
  · simp only [derivedPos]
    rw [if_neg (by omega), hfp]
    have hcum : cumNb s.curves 1 = c0.nbPoints := by
      unfold cumNb
      rw [hc]
      simp
    rw [hcum]
    unfold getV
    rw [getD_append_left (by omega) Vec3.zero, updateCurve_curve_of_some s.store c0 hs0, hg0]
    exact sample_last _ _ _ _ hnb0 hs0
  · simp only [derivedPos]
    rw [if_pos (by omega : (2 : Nat) = s.curves.length), hfp]
    unfold getV
    have hidx : ((updateCurve s.store c0).curve ++ (updateCurve s.store c1).curve).length - 1
        = (updateCurve s.store c0).curve.length + c1.nbPoints := by
      rw [List.length_append, hl0, hl1]
      omega
    rw [hidx, getD_append_right_exact, updateCurve_curve_of_some s.store c1 hs1, hg1]
    exact sample_last _ _ _ _ hnb1 hs1

end Path3D

namespace Path3D

theorem writeStore_curves (s : PathState) (i : Nat) (p : Vec3) :
    (writeStore s i p).curves = s.curves := rfl

theorem writeStore_helpers (s : PathState) (i : Nat) (p : Vec3) :
    (writeStore s i p).helpers = s.helpers := rfl

theorem writeStore_helperPos (s : PathState) (i : Nat) (p : Vec3) :
    (writeStore s i p).helperPos = s.helperPos := rfl

theorem aux_false_curves_length (w : PathState) :
    (updateCurveGeometryAux false w).curves.length = w.curves.length := by
  show (buildCurves w).curves.length = w.curves.length
  exact buildCurves_curves_length w

theorem aux_false_helperPos (w : PathState) :
    (updateCurveGeometryAux false w).helperPos = w.helperPos := rfl

theorem aux_false_helpers (w : PathState) :
    (updateCurveGeometryAux false w).helpers = w.helpers := rfl

theorem aux_false_consistent (w : PathState) :
    cachesConsistent (updateCurveGeometryAux false w) := by
  have h := buildCurves_consistent w
  unfold cachesConsistent at h ⊢
  exact h

theorem aux_false_curves_getD (w : PathState) {i : Nat} (h : i < w.curves.length) :
    (updateCurveGeometryAux false w).curves.getD i MeshCurve.default
      = updateCurve w.store (w.curves.getD i MeshCurve.default) := by
  show ((buildCurves w).curves).getD i MeshCurve.default = _
  show (w.curves.map (updateCurve w.store)).getD i MeshCurve.default = _
  exact map_updateCurve_getD w.store w.curves h

/-- C8: a handle drag on a two-segment path (the path shape every reachable
state has) triggers a full rebuild — the resulting cached samples are
consistent with the mutated control points — pushes the rebuilt combined
polyline to the geometry, and leaves the handle pool untouched: no handle is
created or disposed, and afterwards every handle still sits exactly at its
derived position (the drag path skips the helper pass, but the handles are
extensionally repositioned: the dragged handle already carries its new derived
position and the others' derived positions are unchanged). -/
theorem C8_drag_rebuild (s : PathState) (j : Nat) (p : Vec3)
    (c0 c1 : MeshCurve) (hc : s.curves = [c0, c1])
    (h0 h1 h2 : Nat) (hh : s.helpers = [h0, h1, h2])
    (hid01 : h0 ≠ h1) (hid02 : h0 ≠ h2) (hid12 : h1 ≠ h2)
    (hj : j ≤ 2)
    (hnb0 : 1 ≤ c0.nbPoints) (hnb1 : 1 ≤ c1.nbPoints)
    (hd03 : c0.v0 ≠ c0.v3) (hd0b0 : c0.v0 ≠ c1.v0) (hd0b3 : c0.v0 ≠ c1.v3)
    (hd3b0 : c0.v3 ≠ c1.v0) (hd3b3 : c0.v3 ≠ c1.v3) (hdb03 : c1.v0 ≠ c1.v3)
    (hr00 : c0.v0 < s.store.length) (hr03 : c0.v3 < s.store.length)
    (hr10 : c1.v0 < s.store.length) (hr13 : c1.v3 < s.store.length)
    (hcons : handlesConsistent s) :
    (dragHelper s j p).helpers = s.helpers ∧
    (dragHelper s j p).nextId = s.nextId ∧
    (dragHelper s j p).disposed = s.disposed ∧
    (dragHelper s j p).curves.length = s.curves.length ∧
    cachesConsistent (dragHelper s j p) ∧
    (dragHelper s j p).geometry = finalPoints (dragHelper s j p) ∧
    handlesConsistent (dragHelper s j p) := by
  have hn : s.curves.length = 2 := by rw [hc]; rfl
  have hgd0 : s.curves.getD 0 MeshCurve.default = c0 := by rw [hc]; rfl
  have hgd1 : s.curves.getD 1 MeshCurve.default = c1 := by rw [hc]; rfl
  have hh0 : s.helpers.getD 0 0 = h0 := by rw [hh]; rfl
  have hh1 : s.helpers.getD 1 0 = h1 := by rw [hh]; rfl
  have hh2 : s.helpers.getD 2 0 = h2 := by rw [hh]; rfl
  obtain ⟨e0, e1, e2⟩ := derivedPos_two s hn (by rw [hgd0]; exact hnb0)
    (by rw [hgd1]; exact hnb1)
  rw [hgd0] at e0 e1
  rw [hgd1] at e2
  have hc0 : lookupPos s.helperPos h0 = getV s.store c0.v0 := by
    rw [← hh0, ← e0]
    exact hcons 0 (by omega)
  have hc1 : lookupPos s.helperPos h1 = getV s.store c0.v3 := by
    rw [← hh1, ← e1]
    exact hcons 1 (by omega)
  have hc2 : lookupPos s.helperPos h2 = getV s.store c1.v3 := by
    rw [← hh2, ← e2]
    exact hcons 2 (by omega)
  interval_cases j
  · rw [dragHelper_eq, if_neg (by omega), if_neg (by omega), hgd0, hh0]
    refine ⟨rfl, rfl, rfl, aux_false_curves_length _, aux_false_consistent _, rfl, ?_⟩
    intro i hi
    have hlen2 : (updateCurveGeometryAux false
        (writeStore (setHelperPos s h0 p) c0.v0 p)).curves.length = 2 := by
      rw [aux_false_curves_length, writeStore_curves, setHelperPos_curves]
      exact hn
    have hgdt0 : (updateCurveGeometryAux false
        (writeStore (setHelperPos s h0 p) c0.v0 p)).curves.getD 0 MeshCurve.default
        = updateCurve (s.store.set c0.v0 p) c0 := by
      rw [aux_false_curves_getD _ (by rw [writeStore_curves, setHelperPos_curves]; omega),
        writeStore_curves, setHelperPos_curves, hgd0]
      rfl
    have hgdt1 : (updateCurveGeometryAux false
        (writeStore (setHelperPos s h0 p) c0.v0 p)).curves.getD 1 MeshCurve.default
        = updateCurve (s.store.set c0.v0 p) c1 := by
      rw [aux_false_curves_getD _ (by rw [writeStore_curves, setHelperPos_curves]; omega),
        writeStore_curves, setHelperPos_curves, hgd1]
      rfl
    obtain ⟨f0, f1, f2⟩ := derivedPos_two _ hlen2
      (by rw [hgdt0, updateCurve_nbPoints]; exact hnb0)
      (by rw [hgdt1, updateCurve_nbPoints]; exact hnb1)
    rw [hgdt0, updateCurve_v0] at f0
    rw [hgdt0, updateCurve_v3] at f1
    rw [hgdt1, updateCurve_v3] at f2
    rw [aux_false_helperPos, aux_false_helpers, writeStore_helperPos, writeStore_helpers,
      setHelperPos_helperPos, setHelperPos_helpers, hh]
    have hi2 : i ≤ 2 := by omega
    interval_cases i
    · show lookupPos (setPos s.helperPos h0 p) h0 = _
      rw [lookupPos_setPos_self, f0]
      have hst : (updateCurveGeometryAux false
          (writeStore (setHelperPos s h0 p) c0.v0 p)).store = s.store.set c0.v0 p := rfl
      rw [hst]
      exact (getV_set_self hr00 p).symm
    · show lookupPos (setPos s.helperPos h0 p) h1 = _
      rw [lookupPos_setPos_ne _ (Ne.symm hid01) p, hc1, f1]
      have hst : (updateCurveGeometryAux false
          (writeStore (setHelperPos s h0 p) c0.v0 p)).store = s.store.set c0.v0 p := rfl
      rw [hst, getV_set_ne hd03 p]
    · show lookupPos (setPos s.helperPos h0 p) h2 = _
      rw [lookupPos_setPos_ne _ (Ne.symm hid02) p, hc2, f2]
      have hst : (updateCurveGeometryAux false
          (writeStore (setHelperPos s h0 p) c0.v0 p)).store = s.store.set c0.v0 p := rfl
      rw [hst, getV_set_ne hd0b3 p]
  · rw [dragHelper_eq, if_neg (by omega), if_pos (by omega), hgd0, hgd1, hh1]
    refine ⟨rfl, rfl, rfl, aux_false_curves_length _, aux_false_consistent _, rfl, ?_⟩
    intro i hi
    have hlen2 : (updateCurveGeometryAux false
        (writeStore (writeStore (setHelperPos s h1 p) c1.v0 p) c0.v3 p)).curves.length = 2
        := by
      rw [aux_false_curves_length, writeStore_curves, writeStore_curves, setHelperPos_curves]
      exact hn
    have hgdt0 : (updateCurveGeometryAux false
        (writeStore (writeStore (setHelperPos s h1 p) c1.v0 p) c0.v3 p)).curves.getD 0
          MeshCurve.default
        = updateCurve ((s.store.set c1.v0 p).set c0.v3 p) c0 := by
      rw [aux_false_curves_getD _ (by
          rw [writeStore_curves, writeStore_curves, setHelperPos_curves]; omega),
        writeStore_curves, writeStore_curves, setHelperPos_curves, hgd0]
      rfl
    have hgdt1 : (updateCurveGeometryAux false
        (writeStore (writeStore (setHelperPos s h1 p) c1.v0 p) c0.v3 p)).curves.getD 1
          MeshCurve.default
        = updateCurve ((s.store.set c1.v0 p).set c0.v3 p) c1 := by
      rw [aux_false_curves_getD _ (by
          rw [writeStore_curves, writeStore_curves, setHelperPos_curves]; omega),
        writeStore_curves, writeStore_curves, setHelperPos_curves, hgd1]
      rfl
    obtain ⟨f0, f1, f2⟩ := derivedPos_two _ hlen2
      (by rw [hgdt0, updateCurve_nbPoints]; exact hnb0)
      (by rw [hgdt1, updateCurve_nbPoints]; exact hnb1)
    rw [hgdt0, updateCurve_v0] at f0
    rw [hgdt0, updateCurve_v3] at f1
    rw [hgdt1, updateCurve_v3] at f2
    rw [aux_false_helperPos, aux_false_helpers, writeStore_helperPos, writeStore_helperPos,
      writeStore_helpers, writeStore_helpers, setHelperPos_helperPos, setHelperPos_helpers, hh]
    have hst : (updateCurveGeometryAux false
        (writeStore (writeStore (setHelperPos s h1 p) c1.v0 p) c0.v3 p)).store
        = (s.store.set c1.v0 p).set c0.v3 p := rfl
    have hi2 : i ≤ 2 := by omega
    interval_cases i
    · show lookupPos (setPos s.helperPos h1 p) h0 = _
      rw [lookupPos_setPos_ne _ hid01 p, hc0, f0, hst,
        getV_set_ne (Ne.symm hd03) p, getV_set_ne (Ne.symm hd0b0) p]
    · show lookupPos (setPos s.helperPos h1 p) h1 = _
      rw [lookupPos_setPos_self, f1, hst]
      exact (getV_set_self (by rw [List.length_set]; exact hr03) p).symm
    · show lookupPos (setPos s.helperPos h1 p) h2 = _
      rw [lookupPos_setPos_ne _ (Ne.symm hid12) p, hc2, f2, hst,
        getV_set_ne hd3b3 p, getV_set_ne hdb03 p]
  · rw [dragHelper_eq, if_pos (by omega), hgd1, hh2]
    refine ⟨rfl, rfl, rfl, aux_false_curves_length _, aux_false_consistent _, rfl, ?_⟩
    intro i hi
    have hlen2 : (updateCurveGeometryAux false
        (writeStore (setHelperPos s h2 p) c1.v3 p)).curves.length = 2 := by
      rw [aux_false_curves_length, writeStore_curves, setHelperPos_curves]
      exact hn
    have hgdt0 : (updateCurveGeometryAux false
        (writeStore (setHelperPos s h2 p) c1.v3 p)).curves.getD 0 MeshCurve.default
        = updateCurve (s.store.set c1.v3 p) c0 := by
      rw [aux_false_curves_getD _ (by rw [writeStore_curves, setHelperPos_curves]; omega),
        writeStore_curves, setHelperPos_curves, hgd0]
      rfl
    have hgdt1 : (updateCurveGeometryAux false
        (writeStore (setHelperPos s h2 p) c1.v3 p)).curves.getD 1 MeshCurve.default
        = updateCurve (s.store.set c1.v3 p) c1 := by
      rw [aux_false_curves_getD _ (by rw [writeStore_curves, setHelperPos_curves]; omega),
        writeStore_curves, setHelperPos_curves, hgd1]
      rfl
    obtain ⟨f0, f1, f2⟩ := derivedPos_two _ hlen2
      (by rw [hgdt0, updateCurve_nbPoints]; exact hnb0)
      (by rw [hgdt1, updateCurve_nbPoints]; exact hnb1)
    rw [hgdt0, updateCurve_v0] at f0
    rw [hgdt0, updateCurve_v3] at f1
    rw [hgdt1, updateCurve_v3] at f2
    rw [aux_false_helperPos, aux_false_helpers, writeStore_helperPos, writeStore_helpers,
      setHelperPos_helperPos, setHelperPos_helpers, hh]
    have hst : (updateCurveGeometryAux false
        (writeStore (setHelperPos s h2 p) c1.v3 p)).store = s.store.set c1.v3 p := rfl
    have hi2 : i ≤ 2 := by omega
    interval_cases i
    · show lookupPos (setPos s.helperPos h2 p) h0 = _
      rw [lookupPos_setPos_ne _ hid02 p, hc0, f0, hst, getV_set_ne (Ne.symm hd0b3) p]
    · show lookupPos (setPos s.helperPos h2 p) h1 = _
      rw [lookupPos_setPos_ne _ hid12 p, hc1, f1, hst, getV_set_ne (Ne.symm hd3b3) p]
    · show lookupPos (setPos s.helperPos h2 p) h2 = _
      rw [lookupPos_setPos_self, f2, hst]
      exact (getV_set_self hr13 p).symm

end Path3D

namespace Path3D

/-! ### The combined polyline as plain concatenation -/

theorem built_curve_length (st : List Vec3) {c : MeshCurve} (h : 1 ≤ c.nbPoints) :
    (updateCurve st c).curve.length = c.nbPoints + 1 := by
  rw [updateCurve_curve_of_some st c (sample_eq_some _ _ _ _ h)]
  exact sample_length _ _ _ _ h (sample_eq_some _ _ _ _ h)

theorem built_flatten_length (st : List Vec3) (cs : List MeshCurve)
    (h : ∀ c ∈ cs, 1 ≤ c.nbPoints) :
    ((cs.map (updateCurve st)).map MeshCurve.curve).flatten.length
      = (cs.map (fun c => c.nbPoints + 1)).sum := by
  rw [List.length_flatten, List.map_map, List.map_map]
  congr 1
  refine List.map_congr_left (fun c hc => ?_)
  show (updateCurve st c).curve.length = c.nbPoints + 1
  exact built_curve_length st (h c hc)

theorem built_flatten_append (st : List Vec3) (cs1 cs2 : List MeshCurve) :
    (((cs1 ++ cs2).map (updateCurve st)).map MeshCurve.curve).flatten
      = ((cs1.map (updateCurve st)).map MeshCurve.curve).flatten
        ++ ((cs2.map (updateCurve st)).map MeshCurve.curve).flatten := by
  rw [List.map_append, List.map_append, List.flatten_append]

theorem finalPoints_buildCurves (s : PathState) :
    finalPoints (buildCurves s) = ((s.curves.map (updateCurve s.store)).map
      MeshCurve.curve).flatten := rfl

/-- C10: `getFinalCurvePoints` is the plain concatenation of every segment's
full rebuilt sample sequence with no deduplication at joints: the total length
is the sum of the per-segment sample-sequence lengths (count+1 each), and
whenever two adjacent segments agree on the joint value, that value occurs as
two consecutive equal points at the segment boundary of the output. -/
theorem C10_plain_concat (s : PathState)
    (hnb : ∀ c ∈ s.curves, 1 ≤ c.nbPoints) :
    (getFinalCurvePoints s).2
      = ((buildCurves s).curves.map MeshCurve.curve).flatten ∧
    (getFinalCurvePoints s).2.length = (s.curves.map (fun c => c.nbPoints + 1)).sum ∧
    ∀ i, i + 1 < s.curves.length →
      getV s.store (s.curves.getD i MeshCurve.default).v3
        = getV s.store (s.curves.getD (i + 1) MeshCurve.default).v0 →
      (getFinalCurvePoints s).2.getD
          (((s.curves.take (i + 1)).map (fun c => c.nbPoints + 1)).sum - 1) Vec3.zero
        = (getFinalCurvePoints s).2.getD
          (((s.curves.take (i + 1)).map (fun c => c.nbPoints + 1)).sum) Vec3.zero ∧
      (getFinalCurvePoints s).2.getD
          (((s.curves.take (i + 1)).map (fun c => c.nbPoints + 1)).sum) Vec3.zero
        = getV s.store (s.curves.getD (i + 1) MeshCurve.default).v0 := by
  have hpts : (getFinalCurvePoints s).2
      = ((s.curves.map (updateCurve s.store)).map MeshCurve.curve).flatten := rfl
  refine ⟨rfl, ?_, ?_⟩
  · rw [hpts]
    exact built_flatten_length s.store s.curves hnb
  · intro i hi hjoint
    have hii : i < s.curves.length := by omega
    have hgi : s.curves.getD i MeshCurve.default = s.curves[i] :=
      List.getD_eq_getElem _ _ hii
    have hgi1 : s.curves.getD (i + 1) MeshCurve.default = s.curves[i + 1] :=
      List.getD_eq_getElem _ _ hi
    have hmi : s.curves[i] ∈ s.curves := List.getElem_mem hii
    have hmi1 : s.curves[i + 1] ∈ s.curves := List.getElem_mem hi
    have hnbi : 1 ≤ (s.curves[i]).nbPoints := hnb _ hmi
    have hnbi1 : 1 ≤ (s.curves[i + 1]).nbPoints := hnb _ hmi1
    have hsplit : s.curves = s.curves.take (i + 1) ++ s.curves.drop (i + 1) :=
      (List.take_append_drop _ _).symm
    have hdrop : s.curves.drop (i + 1) = s.curves[i + 1] :: s.curves.drop (i + 2) := by
      rw [List.drop_eq_getElem_cons hi]
    have htake : s.curves.take (i + 1) = s.curves.take i ++ [s.curves[i]] := by
      rw [List.take_succ, List.getElem?_eq_getElem hii]
      rfl
    have hofftake : (((s.curves.take (i + 1)).map (fun c => c.nbPoints + 1)).sum)
        = ((s.curves.take i).map (fun c => c.nbPoints + 1)).sum
          + ((s.curves[i]).nbPoints + 1) := by
      rw [htake, List.map_append, List.sum_append]
      simp
    have hlenA : (((s.curves.take i).map (updateCurve s.store)).map
        MeshCurve.curve).flatten.length
        = ((s.curves.take i).map (fun c => c.nbPoints + 1)).sum :=
      built_flatten_length s.store _ (fun c hc => hnb c (List.mem_of_mem_take hc))
    have hlenT : (((s.curves.take (i + 1)).map (updateCurve s.store)).map
        MeshCurve.curve).flatten.length
        = ((s.curves.take (i + 1)).map (fun c => c.nbPoints + 1)).sum :=
      built_flatten_length s.store _ (fun c hc => hnb c (List.mem_of_mem_take hc))
    have hci : (updateCurve s.store s.curves[i]).curve.length = (s.curves[i]).nbPoints + 1 :=
      built_curve_length s.store hnbi
    have hci1 : (updateCurve s.store s.curves[i + 1]).curve.length
        = (s.curves[i + 1]).nbPoints + 1 :=
      built_curve_length s.store hnbi1
    have hpts2 : (getFinalCurvePoints s).2
        = (((s.curves.take (i + 1)).map (updateCurve s.store)).map MeshCurve.curve).flatten
          ++ (((s.curves.drop (i + 1)).map (updateCurve s.store)).map
            MeshCurve.curve).flatten := by
      rw [hpts]
      conv_lhs => rw [hsplit]
      exact built_flatten_append s.store _ _
    have hQ : (((s.curves.drop (i + 1)).map (updateCurve s.store)).map
        MeshCurve.curve).flatten
        = (updateCurve s.store s.curves[i + 1]).curve
          ++ (((s.curves.drop (i + 2)).map (updateCurve s.store)).map
            MeshCurve.curve).flatten := by
      rw [hdrop]
      rfl
    have hP : (((s.curves.take (i + 1)).map (updateCurve s.store)).map
        MeshCurve.curve).flatten
        = (((s.curves.take i).map (updateCurve s.store)).map MeshCurve.curve).flatten
          ++ (updateCurve s.store s.curves[i]).curve := by
      rw [htake, built_flatten_append]
      simp
    constructor
    · rw [hpts2, hP]
      have hidx1 : ((s.curves.take (i + 1)).map (fun c => c.nbPoints + 1)).sum - 1
          = (((s.curves.take i).map (updateCurve s.store)).map
              MeshCurve.curve).flatten.length + (s.curves[i]).nbPoints := by
        rw [hlenA, hofftake]
        omega
      rw [List.append_assoc, hidx1, getD_append_right_exact]
      have hidx2 : ((s.curves.take (i + 1)).map (fun c => c.nbPoints + 1)).sum
          = (((s.curves.take i).map (updateCurve s.store)).map
              MeshCurve.curve).flatten.length + ((s.curves[i]).nbPoints + 1) := by
        rw [hlenA, hofftake]
      rw [hidx2, getD_append_right_exact]
      have hleft1 : ((updateCurve s.store s.curves[i]).curve
          ++ (((s.curves.drop (i + 1)).map (updateCurve s.store)).map
            MeshCurve.curve).flatten).getD (s.curves[i]).nbPoints Vec3.zero
          = (updateCurve s.store s.curves[i]).curve.getD (s.curves[i]).nbPoints Vec3.zero :=
        getD_append_left (by omega) Vec3.zero
      rw [hleft1]
      have hlast : (updateCurve s.store s.curves[i]).curve.getD (s.curves[i]).nbPoints
          Vec3.zero = getV s.store (s.curves[i]).v3 := by
        rw [updateCurve_curve_of_some s.store _ (sample_eq_some _ _ _ _ hnbi)]
        exact sample_last _ _ _ _ hnbi (sample_eq_some _ _ _ _ hnbi)
      have hright : ((updateCurve s.store s.curves[i]).curve
          ++ (((s.curves.drop (i + 1)).map (updateCurve s.store)).map
            MeshCurve.curve).flatten).getD ((s.curves[i]).nbPoints + 1) Vec3.zero
          = (((s.curves.drop (i + 1)).map (updateCurve s.store)).map
            MeshCurve.curve).flatten.getD 0 Vec3.zero := by
        have : (s.curves[i]).nbPoints + 1 = (updateCurve s.store s.curves[i]).curve.length + 0
            := by omega
        rw [this, getD_append_right_exact]
      rw [hright, hQ]
      have hhead : ((updateCurve s.store s.curves[i + 1]).curve
          ++ (((s.curves.drop (i + 2)).map (updateCurve s.store)).map
            MeshCurve.curve).flatten).getD 0 Vec3.zero
          = getV s.store (s.curves[i + 1]).v0 := by
        rw [getD_append_left (by omega) Vec3.zero,
          updateCurve_curve_of_some s.store _ (sample_eq_some _ _ _ _ hnbi1)]
        exact sample_head _ _ _ _ hnbi1 (sample_eq_some _ _ _ _ hnbi1)
      rw [hhead, hlast]
      rw [hgi, hgi1] at hjoint
      exact hjoint
    · rw [hpts2]
      have hidx2 : ((s.curves.take (i + 1)).map (fun c => c.nbPoints + 1)).sum
          = (((s.curves.take (i + 1)).map (updateCurve s.store)).map
              MeshCurve.curve).flatten.length + 0 := by
        rw [hlenT]
        omega
      rw [hidx2, getD_append_right_exact, hQ]
      rw [getD_append_left (by omega) Vec3.zero,
        updateCurve_curve_of_some s.store _ (sample_eq_some _ _ _ _ hnbi1)]
      rw [hgi1]
      exact sample_head _ _ _ _ hnbi1 (sample_eq_some _ _ _ _ hnbi1)

theorem C10_witness :
    (∀ c ∈ defaultState.curves, 1 ≤ c.nbPoints) ∧
    (getFinalCurvePoints defaultState).2.length
      = (defaultState.curves.map (fun c => c.nbPoints + 1)).sum ∧
    getV defaultState.store (defaultState.curves.getD 0 MeshCurve.default).v3
      = getV defaultState.store (defaultState.curves.getD 1 MeshCurve.default).v0 ∧
    (getFinalCurvePoints defaultState).2.getD
        (((defaultState.curves.take 1).map (fun c => c.nbPoints + 1)).sum - 1) Vec3.zero
      = (getFinalCurvePoints defaultState).2.getD
        (((defaultState.curves.take 1).map (fun c => c.nbPoints + 1)).sum) Vec3.zero := by
  have hnb : ∀ c ∈ defaultState.curves, 1 ≤ c.nbPoints := by decide
  have hj : getV defaultState.store (defaultState.curves.getD 0 MeshCurve.default).v3
      = getV defaultState.store (defaultState.curves.getD 1 MeshCurve.default).v0 := rfl
  exact ⟨hnb, (C10_plain_concat defaultState hnb).2.1,
    hj, ((C10_plain_concat defaultState hnb).2.2 0 (by decide) hj).1⟩

end Path3D

namespace Path3D

/-! ### Joint sharing on the default path, and the default show() scenario -/

/-- C1 counterexample: on the default path the joint is NOT one shared object.
The two segments hold distinct `Vector3` objects (arena slots 3 and 4) that
merely carry equal values at construction; editing segment 0's end point to
(5,5,5) through the inspector leaves segment 1's start point at (1,1,1), so a
mutation through one segment is not observed through the other. -/
theorem C1_counterexample :
    (defaultState.curves.getD 0 MeshCurve.default).v3
      ≠ (defaultState.curves.getD 1 MeshCurve.default).v0 ∧
    getV defaultState.store (defaultState.curves.getD 0 MeshCurve.default).v3
      = getV defaultState.store (defaultState.curves.getD 1 MeshCurve.default).v0 ∧
    getV (setSegmentV3 defaultState 0 ⟨5, 5, 5⟩).store
      ((setSegmentV3 defaultState 0 ⟨5, 5, 5⟩).curves.getD 0 MeshCurve.default).v3
      = ⟨5, 5, 5⟩ ∧
    getV (setSegmentV3 defaultState 0 ⟨5, 5, 5⟩).store
      ((setSegmentV3 defaultState 0 ⟨5, 5, 5⟩).curves.getD 1 MeshCurve.default).v0
      = ⟨1, 1, 1⟩ ∧
    getV (setSegmentV3 defaultState 0 ⟨5, 5, 5⟩).store
      ((setSegmentV3 defaultState 0 ⟨5, 5, 5⟩).curves.getD 1 MeshCurve.default).v0
      ≠ ⟨5, 5, 5⟩ := by
  refine ⟨by decide, rfl, rfl, rfl, ?_⟩
  intro h
  have h2 : (⟨1, 1, 1⟩ : Vec3) = ⟨5, 5, 5⟩ := h
  cases h2

/-- C1 (amended): the default path's joint consists of two distinct control
point objects that are value-equal at construction, and a drag of the joint
handle re-establishes value equality only because the callback writes the new
position into both segment 0's end and segment 1's start explicitly. -/
theorem C1_joint_value_equal (p : Vec3) :
    (defaultState.curves.getD 0 MeshCurve.default).v3
      ≠ (defaultState.curves.getD 1 MeshCurve.default).v0 ∧
    getV defaultState.store (defaultState.curves.getD 0 MeshCurve.default).v3
      = getV defaultState.store (defaultState.curves.getD 1 MeshCurve.default).v0 ∧
    getV (dragHelper shownState 1 p).store
      ((dragHelper shownState 1 p).curves.getD 0 MeshCurve.default).v3 = p ∧
    getV (dragHelper shownState 1 p).store
      ((dragHelper shownState 1 p).curves.getD 1 MeshCurve.default).v0 = p :=
  ⟨by decide, rfl, rfl, rfl⟩

theorem C1_witness :
    (defaultState.curves.getD 0 MeshCurve.default).v3
      ≠ (defaultState.curves.getD 1 MeshCurve.default).v0 ∧
    getV defaultState.store (defaultState.curves.getD 0 MeshCurve.default).v3
      = getV defaultState.store (defaultState.curves.getD 1 MeshCurve.default).v0 ∧
    getV (dragHelper shownState 1 ⟨7, 8, 9⟩).store
      ((dragHelper shownState 1 ⟨7, 8, 9⟩).curves.getD 0 MeshCurve.default).v3 = ⟨7, 8, 9⟩ ∧
    getV (dragHelper shownState 1 ⟨7, 8, 9⟩).store
      ((dragHelper shownState 1 ⟨7, 8, 9⟩).curves.getD 1 MeshCurve.default).v0 = ⟨7, 8, 9⟩ :=
  C1_joint_value_equal ⟨7, 8, 9⟩

/-- C2 counterexample: the combined polyline of the default two-segment path
has 22 points, not 21 — each segment contributes its full count+1 = 11 point
sample sequence and the joint value is duplicated — and the third handle sits
at the polyline point at offset 21 (the last point), whose value differs from
the point at offset 20. -/
theorem C2_counterexample :
    (getFinalCurvePoints defaultState).2.length = 22 ∧
    (getFinalCurvePoints defaultState).2.length ≠ 21 ∧
    lookupPos shownState.helperPos (shownState.helpers.getD 2 0)
      = getV (getFinalCurvePoints defaultState).2 21 ∧
    getV (getFinalCurvePoints defaultState).2 21
      ≠ getV (getFinalCurvePoints defaultState).2 20 := by
  refine ⟨by decide, by decide, rfl, ?_⟩
  have h21 : (getV (getFinalCurvePoints defaultState).2 21).x = 0 := by
    show bezier (((10 : Nat) : ℚ) / ((10 : Nat) : ℚ)) 1 (5/2) (3/2) 0 = 0
    norm_num [bezier]
  have h20 : (getV (getFinalCurvePoints defaultState).2 20).x = 433/1000 := by
    show bezier (((9 : Nat) : ℚ) / ((10 : Nat) : ℚ)) 1 (5/2) (3/2) 0 = 433/1000
    norm_num [bezier]
  intro h
  rw [h, h20] at h21
  norm_num at h21

/-- C2 (amended): for the default two-segment path (10 samples per segment),
`show()` produces exactly 3 handles; the combined polyline has 22 points, and
the handles sit at the polyline points at offsets 0, 10 and 21 (the last
point). -/
theorem C2_default_show :
    shownState.helpers.length = 3 ∧
    (getFinalCurvePoints defaultState).2.length = 22 ∧
    lookupPos shownState.helperPos (shownState.helpers.getD 0 0)
      = getV (getFinalCurvePoints defaultState).2 0 ∧
    lookupPos shownState.helperPos (shownState.helpers.getD 1 0)
      = getV (getFinalCurvePoints defaultState).2 10 ∧
    lookupPos shownState.helperPos (shownState.helpers.getD 2 0)
      = getV (getFinalCurvePoints defaultState).2 21 :=
  ⟨by decide, by decide, rfl, rfl, rfl⟩

theorem C8_witness :
    shownState.helpers = [0, 1, 2] ∧
    handlesConsistent shownState ∧
    ((dragHelper shownState 1 ⟨5, 5, 5⟩).helpers = shownState.helpers ∧
      (dragHelper shownState 1 ⟨5, 5, 5⟩).nextId = shownState.nextId ∧
      (dragHelper shownState 1 ⟨5, 5, 5⟩).disposed = shownState.disposed ∧
      (dragHelper shownState 1 ⟨5, 5, 5⟩).curves.length = shownState.curves.length ∧
      cachesConsistent (dragHelper shownState 1 ⟨5, 5, 5⟩) ∧
      (dragHelper shownState 1 ⟨5, 5, 5⟩).geometry
        = finalPoints (dragHelper shownState 1 ⟨5, 5, 5⟩) ∧
      handlesConsistent (dragHelper shownState 1 ⟨5, 5, 5⟩)) := by
  have hcons : handlesConsistent shownState := by
    intro i hi
    have hi2 : i ≤ 2 := hi
    interval_cases i <;> rfl
  refine ⟨by decide, hcons, ?_⟩
  exact C8_drag_rebuild shownState 1 ⟨5, 5, 5⟩
    (shownState.curves.getD 0 MeshCurve.default) (shownState.curves.getD 1 MeshCurve.default)
    rfl 0 1 2 (by decide)
    (by decide) (by decide) (by decide)
    (by decide)
    (by decide) (by decide)
    (by decide) (by decide) (by decide) (by decide) (by decide) (by decide)
    (by decide) (by decide) (by decide) (by decide)
    hcons

end Path3D
